import Mathlib

/-!
Verification of the seed-URL checker (src/src/python/check_seeds.py).

The development is a shallow embedding of the script.  `check_url` is the
per-URL validator (source lines 134-208); the pagination driver `main`
(source lines 12-99) is embedded as `processRecord` / `processResults` /
`runCluster` / `runClusters` / `runMain`, with the network modelled as an
explicit trace: the list of responses the collection API returns to the
successive `get_seeds` calls, and, per seed record, the behaviour of the
probe request and of the robots-file collaborator.
-/

set_option linter.unusedVariables false

namespace CheckSeeds

/-- A URL as decomposed by `urlparse`: the validator receives a URL string
and consults only the components shown here (scheme, netloc, path, query). -/
structure Url where
  scheme : String
  netloc : String
  path : String
  query : String
deriving DecidableEq

/-- The original URL string that the parsed components came from; it is what
`check_url` passes to `can_fetch`. -/
def renderUrl (u : Url) : String :=
  u.scheme ++ "://" ++ u.netloc ++ u.path ++ u.query

/-- Transport-level exceptions distinguished by the `except` clauses of
`check_url` (lines 199-206): `requests.exceptions.Timeout`,
`requests.exceptions.TooManyRedirects`, `requests.exceptions.SSLError`,
and any other exception, carried with its textual description. -/
inductive Exn where
  | timeout
  | tooManyRedirects
  | sslError
  | other (desc : String)
deriving DecidableEq

/-- The message each `except` clause of `check_url` assigns (lines 199-206). -/
def exnMsg : Exn → String
  | .timeout => "Timeout after 30s"
  | .tooManyRedirects => "Too many redirects"
  | .sslError => "SSL error"
  | .other d => d

/-- Response headers as consulted by the code: the only lookup performed is
of the `Location` key (lines 164-165), modelled by its result. -/
structure Headers where
  location : Option String
deriving DecidableEq

/-- The outcome of `requests.head(url, timeout=30, allow_redirects=False)`
(line 140): either a raised transport exception, or a response carrying a
status code and headers. -/
inductive ProbeResult where
  | exn (e : Exn)
  | ok (code : Nat) (headers : Headers)
deriving DecidableEq

/-- Observable behaviour of the `RobotFileParser` collaborator in the 200
branch (lines 147-151): `rp.read()` either raises, or completes, after which
`rp.can_fetch("CoherenceBot", url)` returns a boolean verdict. -/
inductive RobotsOutcome where
  | readRaises (e : Exn)
  | verdict (canFetch : Bool)
deriving DecidableEq

/-- The robots collaborator as a function of the robots.txt URL it is told
to read (`rp.set_url`), the agent name, and the target URL passed to
`can_fetch`. -/
def RobotsGate : Type := String → String → String → RobotsOutcome

/-- Line 145: `robots_txt = '{uri.scheme}://{uri.netloc}/robots.txt'`. -/
def robotsUrl (u : Url) : String :=
  u.scheme ++ "://" ++ u.netloc ++ "/robots.txt"

/-- Lines 164-167: the message for a 3xx response. -/
def redirectMsg (h : Headers) : String :=
  match h.location with
  | some loc => loc
  | none => "Redirect without location"

/-- The `elif` chain of `check_url` for a response whose code is not 200
(lines 157-197), in source order.  The final `""` mirrors the initial value
of `response_msg` (line 137), reached by no code since the chain covers
every natural number. -/
def statusMsg (code : Nat) (h : Headers) : String :=
  if code = 206 then "No content"
  else if 200 < code ∧ code < 300 then "Other 2xx"
  else if 300 ≤ code ∧ code < 400 then redirectMsg h
  else if code = 400 then "Bad Request"
  else if code = 401 then "Unauthorized"
  else if code = 402 then "Payment required"
  else if code = 403 then "Forbidden"
  else if code = 405 then "Method not allowed"
  else if code = 404 then "Not found"
  else if code = 406 then "Not acceptable"
  else if 400 ≤ code ∧ code < 500 then "Other 4xx"
  else if code < 200 then "Partial response"
  else if 500 ≤ code then "Server error"
  else ""

/-- The triple `[response_status, response_code, response_msg]` returned by
`check_url` (line 208). -/
structure Outcome where
  success : Bool
  code : Nat
  msg : String
deriving DecidableEq

/-- Shallow embedding of `check_url` (lines 134-208).  A raised probe leaves
`response_code` at its initial 0 and maps the exception through the `except`
clauses; a 200 response runs the robots gate, whose own raised exception is
caught by the same clauses with `response_code` already set to 200; any
other code goes through the `elif` chain. -/
def check_url (u : Url) : ProbeResult → RobotsGate → Outcome
  | .exn e, _ => ⟨false, 0, exnMsg e⟩
  | .ok code h, gate =>
    if code = 200 then
      match gate (robotsUrl u) "CoherenceBot" (renderUrl u) with
      | .readRaises e => ⟨false, code, exnMsg e⟩
      | .verdict true => ⟨true, code, "Accepted"⟩
      | .verdict false => ⟨false, code, "Robot exclusion"⟩
    else
      ⟨false, code, statusMsg code h⟩

/-- The status classification implicit in `check_url`: code 200 is the
candidate-success case (final success gated by robots), every other code
gets the message of the `elif` chain. -/
inductive ClassOutcome where
  | candidate
  | fail (msg : String)
deriving DecidableEq

/-- `classify` in the sense of the spec's StatusClassifier: the code-to-
outcome mapping performed by lines 142-197. -/
def classify (code : Nat) (h : Headers) : ClassOutcome :=
  if code = 200 then .candidate else .fail (statusMsg code h)

/-- The documented status brackets, one boolean predicate per bracket, used
to state that the classification has no gap and no overlap. -/
def docBuckets : List (Nat → Bool) :=
  [ fun c => c == 200,
    fun c => c == 206,
    fun c => decide (200 < c) && decide (c < 300) && !(c == 206),
    fun c => decide (300 ≤ c) && decide (c < 400),
    fun c => c == 400,
    fun c => c == 401,
    fun c => c == 402,
    fun c => c == 403,
    fun c => c == 404,
    fun c => c == 405,
    fun c => c == 406,
    fun c => decide (400 ≤ c) && decide (c < 500) && decide (406 < c),
    fun c => decide (c < 200),
    fun c => decide (500 ≤ c) ]

/-- One entry of a page's `results` array as consumed by `main`
(lines 60-65): the fields read from the JSON object, together with the
network's behaviour for this record's probe and robots check (the responses
the world gives when `check_url` is called on the record's URL). -/
structure SeedRecord where
  url : Url
  uuid : String
  title : String
  orgSlug : String
  probe : ProbeResult
  robots : RobotsOutcome
deriving DecidableEq

/-- A successfully fetched collection-API page: the JSON object returned by
`get_seeds`.  `next` is `none` when the key is absent, `some v` when present
with value `v` (`v = none` standing for JSON null); likewise `results`.
`hasOtherKeys` records whether the object carries any further keys, which
matters only for Python truthiness of the dict (`if not api_response`). -/
structure Page where
  next : Option (Option String)
  results : Option (List SeedRecord)
  hasOtherKeys : Bool
deriving DecidableEq

/-- Python truthiness of the page's dict: non-empty. -/
def Page.isTruthy (p : Page) : Bool :=
  p.next.isSome || p.results.isSome || p.hasOtherKeys

/-- Lines 54-57: `endpoint = api_response['next']` when the key is present
(its value may be null), else `endpoint = None`. -/
def nextEndpoint (p : Page) : Option String :=
  match p.next with
  | some v => v
  | none => none

/-- The mutable run state of `main` (lines 31-35 and the TSV report file):
`page`, `count`, `successes`, `failures`, `retries`, the failure rows
appended to the report (line 78), and two projections of the console log:
the cluster named by each per-page progress line (line 42, one entry per
`get_seeds` call) and the clusters for which the retry-exhaustion line
(line 48) was printed. -/
structure RunState where
  page : Nat
  count : Nat
  successes : Nat
  failures : Nat
  retries : Nat
  report : List (String × String × String × Nat × String)
  fetchLog : List String
  abandoned : List String
deriving DecidableEq

/-- The state at the top of the `try` block: every counter 0, report empty
(the constant header row written at line 27 is not modelled). -/
def initState : RunState := ⟨0, 0, 0, 0, 0, [], [], []⟩

/-- Lines 60-82: process one `results` entry: increment `count`, run
`check_url`, and increment exactly one of `successes`/`failures`, appending
a TSV row on failure. -/
def processRecord (st : RunState) (r : SeedRecord) : RunState :=
  let out := check_url r.url r.probe (fun _ _ _ => r.robots)
  if out.success then
    { st with count := st.count + 1, successes := st.successes + 1 }
  else
    { st with count := st.count + 1, failures := st.failures + 1,
              report := st.report ++ [(renderUrl r.url, r.uuid, r.orgSlug, out.code, out.msg)] }

/-- Lines 60-84: the `for collection in api_response['results']` loop,
with the `if args.n > 0 and count >= args.n: break` check after each
record. -/
def processResults (n : Nat) : RunState → List SeedRecord → RunState
  | st, [] => st
  | st, r :: rs =>
    let st' := processRecord st r
    if n > 0 ∧ st'.count ≥ n then st' else processResults n st' rs

/-- Lines 40-86: the `while endpoint is not None` loop for one cluster.
The first list argument is the trace of responses the collection API gives
to the successive `get_seeds` calls; each iteration consumes one.  The
function returns the unconsumed tail of the trace (the responses the world
would give to later calls) together with the updated state.  A page that is
`None` or a falsy (empty) dict takes the retry branch of lines 44-53; a
truthy page updates the endpoint from its `next` key and walks its
`results` if present.  An exhausted trace ends the observed run. -/
def runCluster (n : Nat) (c : String) :
    List (Option Page) → Option String → RunState → List (Option Page) × RunState
  | script, none, st => (script, st)
  | [], some _, st => ([], st)
  | resp :: script, some ep, st =>
    let st1 := { st with page := st.page + 1, fetchLog := st.fetchLog ++ [c] }
    match resp with
    | none =>
      if st1.retries + 1 > 3 then
        (script, { st1 with retries := 0, abandoned := st1.abandoned ++ [c] })
      else
        runCluster n c script (some ep) { st1 with retries := st1.retries + 1 }
    | some pg =>
      if pg.isTruthy = true then
        match pg.results with
        | none => runCluster n c script (nextEndpoint pg) st1
        | some rs =>
          let st2 := processResults n st1 rs
          if n > 0 ∧ st2.count ≥ n then (script, st2)
          else runCluster n c script (nextEndpoint pg) st2
      else
        if st1.retries + 1 > 3 then
          (script, { st1 with retries := 0, abandoned := st1.abandoned ++ [c] })
        else
          runCluster n c script (some ep) { st1 with retries := st1.retries + 1 }

/-- Lines 37-90: the `for cluster in clusters` loop.  Each cluster restarts
from the base endpoint (line 39); after a cluster's while loop ends, the
`if args.n > 0 and count >= args.n: break` check at line 88 runs. -/
def runClusters (n : Nat) (e : String) :
    List String → List (Option Page) → RunState → RunState
  | [], _, st => st
  | c :: cs, script, st =>
    let res := runCluster n c script (some e) st
    if n > 0 ∧ res.2.count ≥ n then res.2
    else runClusters n e cs res.1 res.2

/-- Line 23: the fixed cluster list. -/
def clusters : List String := ["us-east-2", "eu-central-1", "ap-northeast-1"]

/-- The whole run of `main` for `-n n` and base endpoint `e`, against the
given trace of collection-API responses. -/
def runMain (n : Nat) (e : String) (script : List (Option Page)) : RunState :=
  runClusters n e clusters script initState

/-- A sample parsed URL used in concrete instantiations. -/
def uDemo : Url := ⟨"https", "example.com", "/a/b", "?q=1"⟩

/-- A robots collaborator whose read raises a network error. -/
def gateRaise : RobotsGate :=
  fun _ _ _ => .readRaises (.other "connection refused")

/-- A robots collaborator that allows the agent. -/
def gateAllow : RobotsGate := fun _ _ _ => .verdict true

/-- A robots collaborator that disallows the agent. -/
def gateDeny : RobotsGate := fun _ _ _ => .verdict false

/-- A seed record whose probe returns 200 and whose host's robots allow the
agent, so its validation succeeds. -/
def recW : SeedRecord :=
  ⟨⟨"https", "example.com", "/doc", ""⟩, "uuid-1", "title", "org-1", .ok 200 ⟨none⟩, .verdict true⟩

/-- A page with a `next` cursor and one result. -/
def pgC1 : Page := ⟨some (some "p2"), some [recW], false⟩

/-- Collection-API trace with failures at calls 1, 3, 4 and 5 and a
successful page at call 2. -/
def scriptC1 : List (Option Page) := [none, some pgC1, none, none, none, some ⟨none, some [], false⟩]

/-- Trace whose first response is an empty JSON object and whose second is a
proper page with a null `next` and one result. -/
def scriptC10 : List (Option Page) := [some ⟨none, none, false⟩, some ⟨some none, some [recW], false⟩]

/-- A truthy page lacking both `results` and `next` (it has other keys). -/
def pgC10 : Page := ⟨none, none, true⟩

/-- A collection holding 25 seeds across two pages: 15 on the first page,
10 on the second, which is the last. -/
def scriptC8 : List (Option Page) :=
  [some ⟨some (some "p2"), some (List.replicate 15 recW), false⟩,
   some ⟨none, some (List.replicate 10 recW), false⟩]

/-- C2: for every URL whose probe raises a transport-level failure,
`check_url` returns success=false with status code 0 and the mapped
message: a timeout yields exactly "Timeout after 30s", an excessive
redirect chain yields "Too many redirects", a TLS/certificate failure
yields "SSL error", and any other transport exception yields its textual
description.  (No such failure aborts the run: `check_url` is a total
function of the probe behaviour.) -/
theorem check_seeds_C2 : ∀ (u : Url) (gate : RobotsGate) (d : String),
    check_url u (.exn .timeout) gate = ⟨false, 0, "Timeout after 30s"⟩ ∧
    check_url u (.exn .tooManyRedirects) gate = ⟨false, 0, "Too many redirects"⟩ ∧
    check_url u (.exn .sslError) gate = ⟨false, 0, "SSL error"⟩ ∧
    check_url u (.exn (.other d)) gate = ⟨false, 0, d⟩ := by
  intro u gate d
  exact ⟨rfl, rfl, rfl, rfl⟩

/-- C6: a 200 probe whose host's robots policy disallows agent
"CoherenceBot" for that URL yields success=false, message exactly
"Robot exclusion", and the real observed status code 200. -/
theorem check_seeds_C6 : ∀ (u : Url) (h : Headers) (gate : RobotsGate),
    gate (robotsUrl u) "CoherenceBot" (renderUrl u) = .verdict false →
    check_url u (.ok 200 h) gate = ⟨false, 200, "Robot exclusion"⟩ := by
  intro u h gate hg
  simp [check_url, hg]

/-- Witness for C6 at a concrete URL and an always-deny robots host. -/
theorem check_seeds_C6_witness :
    check_url uDemo (.ok 200 ⟨none⟩) gateDeny = ⟨false, 200, "Robot exclusion"⟩ :=
  check_seeds_C6 uDemo ⟨none⟩ gateDeny rfl

/-- C7: every response with a status code in 300..399 yields success=false
and message exactly the value of the `Location` header when present, and
exactly "Redirect without location" when absent. -/
theorem check_seeds_C7 : ∀ (u : Url) (gate : RobotsGate) (code : Nat) (loc : String),
    300 ≤ code → code < 400 →
    check_url u (.ok code ⟨some loc⟩) gate = ⟨false, code, loc⟩ ∧
    check_url u (.ok code ⟨none⟩) gate = ⟨false, code, "Redirect without location"⟩ := by
  intro u gate code loc h1 h2
  constructor <;>
  · simp only [check_url]
    rw [if_neg (by omega)]
    simp only [statusMsg, redirectMsg]
    rw [if_neg (by omega), if_neg (by omega), if_pos (by omega)]

/-- Witness for C7 at code 301, with and without a `Location` header. -/
theorem check_seeds_C7_witness :
    check_url uDemo (.ok 301 ⟨some "https://example.com/x"⟩) gateAllow
      = ⟨false, 301, "https://example.com/x"⟩ ∧
    check_url uDemo (.ok 301 ⟨none⟩) gateAllow
      = ⟨false, 301, "Redirect without location"⟩ :=
  check_seeds_C7 uDemo gateAllow 301 "https://example.com/x" (by decide) (by decide)

/-- C9: `check_url` is total over all collaborator behaviours (it is a Lean
function of the probe and robots behaviours and always returns an
`Outcome` triple); success=true holds exactly when the probe returned 200
and the robots check completed with an allow verdict, and in that case the
message is exactly "Accepted". -/
theorem check_seeds_C9 : ∀ (u : Url) (probe : ProbeResult) (gate : RobotsGate),
    ((check_url u probe gate).success = true ↔
      ((∃ h, probe = ProbeResult.ok 200 h) ∧
        gate (robotsUrl u) "CoherenceBot" (renderUrl u) = .verdict true)) ∧
    ((check_url u probe gate).success = true → (check_url u probe gate).msg = "Accepted") := by
  intro u probe gate
  match probe with
  | .exn e => simp [check_url]
  | .ok code h =>
    by_cases hc : code = 200
    · subst hc
      rcases hg : gate (robotsUrl u) "CoherenceBot" (renderUrl u) with e | b
      · simp [check_url, hg]
      · cases b <;> simp [check_url, hg]
    · simp [check_url, hc]

/-- Witness for C9: a 200 probe with an allowing robots host is a success
with message "Accepted". -/
theorem check_seeds_C9_witness :
    (check_url uDemo (.ok 200 ⟨none⟩) gateAllow).success = true ∧
    (check_url uDemo (.ok 200 ⟨none⟩) gateAllow).msg = "Accepted" := by
  have h := check_seeds_C9 uDemo (.ok 200 ⟨none⟩) gateAllow
  have hs : (check_url uDemo (.ok 200 ⟨none⟩) gateAllow).success = true :=
    h.1.mpr ⟨⟨⟨none⟩, rfl⟩, rfl⟩
  exact ⟨hs, h.2 hs⟩

/-- C3, counterexample: the claim says that when the robots fetch fails the
check defaults to allowing the agent and the URL is still declared a
success.  In the code, an exception raised by `rp.read()` is caught by the
generic `except` clause of `check_url` (line 205), so the URL gets a
failure outcome (success=false, the already-observed code 200, and the
exception's description as message), not a success. -/
theorem check_seeds_C3_counterexample :
    check_url uDemo (.ok 200 ⟨none⟩) gateRaise = ⟨false, 200, "connection refused"⟩ ∧
    (check_url uDemo (.ok 200 ⟨none⟩) gateRaise).success = false := ⟨rfl, rfl⟩

/-- C3, amended: the robots-file URL consulted is built from the target
URL's scheme and authority only (path and query discarded); but a robots
fetch that raises does not default to allow: it yields a failure outcome
with code 200 and the exception's mapped message.  Only a robots check that
completes with an allow verdict declares the URL a success. -/
theorem check_seeds_C3_amended :
    ∀ (u : Url) (pth q : String) (h : Headers) (gate : RobotsGate) (e : Exn),
    (robotsUrl { u with path := pth, query := q } = robotsUrl u) ∧
    (gate (robotsUrl u) "CoherenceBot" (renderUrl u) = .readRaises e →
      check_url u (.ok 200 h) gate = ⟨false, 200, exnMsg e⟩) ∧
    (gate (robotsUrl u) "CoherenceBot" (renderUrl u) = .verdict true →
      check_url u (.ok 200 h) gate = ⟨true, 200, "Accepted"⟩) := by
  intro u pth q h gate e
  refine ⟨rfl, ?_, ?_⟩ <;> intro hg <;> simp [check_url, hg]

/-- Witness for C3 (amended), at a concrete URL and an allowing host. -/
theorem check_seeds_C3_amended_witness :
    check_url uDemo (.ok 200 ⟨none⟩) gateAllow = ⟨true, 200, "Accepted"⟩ :=
  (check_seeds_C3_amended uDemo "/other" "?x=2" ⟨none⟩ gateAllow (.other "e")).2.2 rfl

set_option maxRecDepth 4000 in
set_option maxHeartbeats 1000000 in
/-- The bracket predicates of `docBuckets` hold exactly once for each code
in [0, 999], checked by evaluation. -/
theorem docBuckets_cover_all :
    ((List.range 1000).all fun c => docBuckets.countP (fun p => p c) == 1) = true := by
  rfl

/-- Pointwise form of `docBuckets_cover_all`. -/
theorem docBuckets_cover : ∀ code : Nat, code ≤ 999 →
    docBuckets.countP (fun p => p code) = 1 := by
  intro code hc
  have hmem : code ∈ List.range 1000 := List.mem_range.mpr (by omega)
  have h2 := List.all_eq_true.mp docBuckets_cover_all code hmem
  simpa using h2

/-- C4: the status classification is total and deterministic.  The
documented brackets cover every code in [0, 999] exactly once (no gap, no
overlap); every code of 500 and above maps to "Server error"; and for every
code and any header mapping the classifier produces exactly the documented
message of the code's bracket, unmatched 4xx values falling into the
400-499 "Other 4xx" bucket. -/
theorem check_seeds_C4 :
    (∀ code : Nat, code ≤ 999 → docBuckets.countP (fun p => p code) = 1) ∧
    (∀ (code : Nat) (h : Headers),
      (code = 200 → classify code h = .candidate) ∧
      (code = 206 → classify code h = .fail "No content") ∧
      (200 < code → code < 300 → code ≠ 206 → classify code h = .fail "Other 2xx") ∧
      (300 ≤ code → code < 400 → classify code h = .fail (redirectMsg h)) ∧
      (code = 400 → classify code h = .fail "Bad Request") ∧
      (code = 401 → classify code h = .fail "Unauthorized") ∧
      (code = 402 → classify code h = .fail "Payment required") ∧
      (code = 403 → classify code h = .fail "Forbidden") ∧
      (code = 404 → classify code h = .fail "Not found") ∧
      (code = 405 → classify code h = .fail "Method not allowed") ∧
      (code = 406 → classify code h = .fail "Not acceptable") ∧
      (406 < code → code < 500 → classify code h = .fail "Other 4xx") ∧
      (code < 200 → classify code h = .fail "Partial response") ∧
      (500 ≤ code → classify code h = .fail "Server error")) := by
  refine ⟨docBuckets_cover, ?_⟩
  intro code h
  refine ⟨fun hc => by subst hc; rfl,
          fun hc => by subst hc; rfl,
          fun h1 h2 h3 => ?_,
          fun h1 h2 => ?_,
          fun hc => by subst hc; rfl,
          fun hc => by subst hc; rfl,
          fun hc => by subst hc; rfl,
          fun hc => by subst hc; rfl,
          fun hc => by subst hc; rfl,
          fun hc => by subst hc; rfl,
          fun hc => by subst hc; rfl,
          fun h1 h2 => ?_,
          fun h1 => ?_,
          fun h1 => ?_⟩
  · unfold classify
    rw [if_neg (by omega)]
    unfold statusMsg
    rw [if_neg h3, if_pos ⟨h1, h2⟩]
  · unfold classify statusMsg
    repeat rw [if_neg (by omega)]
    rw [if_pos ⟨h1, h2⟩]
  · unfold classify statusMsg
    repeat rw [if_neg (by omega)]
    rw [if_pos (by omega)]
  · unfold classify statusMsg
    repeat rw [if_neg (by omega)]
    rw [if_pos h1]
  · unfold classify statusMsg
    repeat rw [if_neg (by omega)]
    rw [if_pos h1]

/-- Witness for C4: code 503 falls in exactly one bracket, and code 418
(unmatched 4xx) classifies as "Other 4xx". -/
theorem check_seeds_C4_witness :
    docBuckets.countP (fun p => p 503) = 1 ∧
    classify 418 ⟨none⟩ = .fail "Other 4xx" :=
  ⟨check_seeds_C4.1 503 (by decide),
   (check_seeds_C4.2 418 ⟨none⟩).2.2.2.2.2.2.2.2.2.2.2.1 (by decide) (by decide)⟩

/-- Processing one record increments `count` by one and the sum
`successes + failures` by one, and touches none of the other counters or
logs. -/
theorem processRecord_spec (st : RunState) (r : SeedRecord) :
    (processRecord st r).count = st.count + 1 ∧
    (processRecord st r).successes + (processRecord st r).failures
      = st.successes + st.failures + 1 ∧
    (processRecord st r).retries = st.retries ∧
    (processRecord st r).fetchLog = st.fetchLog ∧
    (processRecord st r).page = st.page ∧
    (processRecord st r).abandoned = st.abandoned := by
  cases hout : (check_url r.url r.probe fun _ _ _ => r.robots).success <;>
    simp [processRecord, hout] <;> omega

/-- The results loop leaves `retries`, `fetchLog`, `page` and `abandoned`
untouched. -/
theorem processResults_frame : ∀ (rs : List SeedRecord) (n : Nat) (st : RunState),
    (processResults n st rs).retries = st.retries ∧
    (processResults n st rs).fetchLog = st.fetchLog ∧
    (processResults n st rs).page = st.page ∧
    (processResults n st rs).abandoned = st.abandoned := by
  intro rs
  induction rs with
  | nil => intro n st; simp [processResults]
  | cons r rs ih =>
    intro n st
    obtain ⟨-, -, h3, h4, h5, h6⟩ := processRecord_spec st r
    simp only [processResults]
    split
    · exact ⟨h3, h4, h5, h6⟩
    · obtain ⟨i1, i2, i3, i4⟩ := ih n (processRecord st r)
      exact ⟨i1.trans h3, i2.trans h4, i3.trans h5, i4.trans h6⟩

/-- The results loop preserves the counter invariant. -/
theorem processResults_inv : ∀ (rs : List SeedRecord) (n : Nat) (st : RunState),
    st.successes + st.failures = st.count →
    (processResults n st rs).successes + (processResults n st rs).failures
      = (processResults n st rs).count := by
  intro rs
  induction rs with
  | nil => intro n st h; simpa [processResults] using h
  | cons r rs ih =>
    intro n st h
    obtain ⟨h1, h2, -⟩ := processRecord_spec st r
    simp only [processResults]
    split
    · omega
    · exact ih n _ (by omega)

/-- With a positive limit not yet reached, the results loop never pushes
`count` beyond the limit. -/
theorem processResults_le : ∀ (rs : List SeedRecord) (n : Nat) (st : RunState),
    0 < n → st.count < n → (processResults n st rs).count ≤ n := by
  intro rs
  induction rs with
  | nil => intro n st h1 h2; simp only [processResults]; omega
  | cons r rs ih =>
    intro n st h1 h2
    have hp := (processRecord_spec st r).1
    simp only [processResults]
    split
    · omega
    · rename_i hcond
      exact ih n _ h1 (by omega)

/-- With a positive limit not yet reached and enough records on offer, the
results loop stops exactly at the limit. -/
theorem processResults_reach : ∀ (rs : List SeedRecord) (n : Nat) (st : RunState),
    0 < n → st.count < n → n ≤ st.count + rs.length →
    (processResults n st rs).count = n := by
  intro rs
  induction rs with
  | nil => intro n st h1 h2 h3; simp only [List.length_nil] at h3; omega
  | cons r rs ih =>
    intro n st h1 h2 h3
    have hp := (processRecord_spec st r).1
    simp only [processResults]
    split
    · rename_i hcond; omega
    · rename_i hcond
      simp only [List.length_cons] at h3
      exact ih n _ h1 (by omega) (by omega)

/-- The per-cluster while loop preserves the counter invariant. -/
theorem runCluster_inv : ∀ (script : List (Option Page)) (n : Nat) (c : String)
    (ep : Option String) (st : RunState),
    st.successes + st.failures = st.count →
    (runCluster n c script ep st).2.successes + (runCluster n c script ep st).2.failures
      = (runCluster n c script ep st).2.count := by
  intro script
  induction script with
  | nil =>
    intro n c ep st h
    cases ep <;> simpa [runCluster] using h
  | cons resp rest ih =>
    intro n c ep st h
    cases ep with
    | none => simpa [runCluster] using h
    | some e =>
      cases resp with
      | none =>
        simp only [runCluster]
        split
        · simpa using h
        · exact ih n c (some e) _ (by simpa using h)
      | some pg =>
        simp only [runCluster]
        split
        · split
          · exact ih n c _ _ (by simpa using h)
          · rename_i rs hres
            have hinv := processResults_inv rs n
              { st with page := st.page + 1, fetchLog := st.fetchLog ++ [c] } (by simpa using h)
            split
            · exact hinv
            · exact ih n c _ _ hinv
        · split
          · simpa using h
          · exact ih n c (some e) _ (by simpa using h)

/-- The per-cluster while loop never pushes `count` beyond a positive
limit that has not yet been reached. -/
theorem runCluster_le : ∀ (script : List (Option Page)) (n : Nat) (c : String)
    (ep : Option String) (st : RunState),
    0 < n → st.count < n → (runCluster n c script ep st).2.count ≤ n := by
  intro script
  induction script with
  | nil =>
    intro n c ep st h1 h2
    cases ep <;> simp [runCluster] <;> omega
  | cons resp rest ih =>
    intro n c ep st h1 h2
    cases ep with
    | none => simp only [runCluster]; omega
    | some e =>
      cases resp with
      | none =>
        simp only [runCluster]
        split
        · simpa using Nat.le_of_lt h2
        · exact ih n c (some e) _ h1 (by simpa using h2)
      | some pg =>
        simp only [runCluster]
        split
        · split
          · exact ih n c _ _ h1 (by simpa using h2)
          · rename_i rs hres
            have hle := processResults_le rs n
              { st with page := st.page + 1, fetchLog := st.fetchLog ++ [c] } h1 (by simpa using h2)
            split
            · exact hle
            · rename_i hcond
              exact ih n c _ _ h1 (by omega)
        · split
          · simpa using Nat.le_of_lt h2
          · exact ih n c (some e) _ h1 (by simpa using h2)

/-- The cluster loop preserves the counter invariant. -/
theorem runClusters_inv : ∀ (cs : List String) (n : Nat) (e : String)
    (script : List (Option Page)) (st : RunState),
    st.successes + st.failures = st.count →
    (runClusters n e cs script st).successes + (runClusters n e cs script st).failures
      = (runClusters n e cs script st).count := by
  intro cs
  induction cs with
  | nil => intro n e script st h; simpa [runClusters] using h
  | cons c cs ih =>
    intro n e script st h
    simp only [runClusters]
    split
    · exact runCluster_inv script n c (some e) st h
    · exact ih n e _ _ (runCluster_inv script n c (some e) st h)

/-- The cluster loop never pushes `count` beyond a positive limit that has
not yet been reached. -/
theorem runClusters_le : ∀ (cs : List String) (n : Nat) (e : String)
    (script : List (Option Page)) (st : RunState),
    0 < n → st.count < n → (runClusters n e cs script st).count ≤ n := by
  intro cs
  induction cs with
  | nil => intro n e script st h1 h2; simp only [runClusters]; omega
  | cons c cs ih =>
    intro n e script st h1 h2
    simp only [runClusters]
    split
    · exact runCluster_le script n c (some e) st h1 h2
    · rename_i hcond
      have hle := runCluster_le script n c (some e) st h1 h2
      exact ih n e _ _ h1 (by omega)

/-- When the first fetched page is truthy, carries at least enough results
to reach a positive limit not yet reached, the while loop stops inside that
page's results and breaks out, consuming no further trace entry. -/
theorem runCluster_firstPage : ∀ (n : Nat) (c : String) (nx : Option (Option String)) (b : Bool)
    (rs : List SeedRecord) (rest : List (Option Page)) (e : String) (st : RunState),
    0 < n → st.count < n → n ≤ st.count + rs.length →
    runCluster n c (some ⟨nx, some rs, b⟩ :: rest) (some e) st
      = (rest, processResults n { st with page := st.page + 1, fetchLog := st.fetchLog ++ [c] } rs) := by
  intro n c nx b rs rest e st h1 h2 h3
  have hreach : (processResults n
      { st with page := st.page + 1, fetchLog := st.fetchLog ++ [c] } rs).count = n :=
    processResults_reach rs n _ h1 (by simpa using h2) (by simpa using h3)
  simp only [runCluster, Page.isTruthy, Option.isSome_some, Bool.true_or, Bool.or_true]
  rw [if_pos trivial, if_pos ⟨h1, le_of_eq hreach.symm⟩]

/-- C5: after each seed record is fully validated the run counters satisfy
successes + failures == processed: each record increments the processed
count by one and exactly one of successes/failures by one, and any whole
run from the initial state, over any trace and any limit, ends with
successes + failures = processed. -/
theorem check_seeds_C5 :
    (∀ (st : RunState) (r : SeedRecord),
      (processRecord st r).count = st.count + 1 ∧
      (processRecord st r).successes + (processRecord st r).failures
        = st.successes + st.failures + 1) ∧
    (∀ (n : Nat) (e : String) (script : List (Option Page)),
      (runMain n e script).successes + (runMain n e script).failures
        = (runMain n e script).count) := by
  constructor
  · intro st r
    exact ⟨(processRecord_spec st r).1, (processRecord_spec st r).2.1⟩
  · intro n e script
    exact runClusters_inv clusters n e script initState rfl

/-- C8: with `-n` set to N > 0 the run never validates more than N URLs;
when the first page already offers at least N seeds, exactly N URLs are
validated and the run halts after that single page fetch, before fetching
any further page; and with N = 0 the walk is unlimited (the 25-seed
two-page trace is walked to the end, validating all 25). -/
theorem check_seeds_C8 :
    (∀ (n : Nat) (e : String) (script : List (Option Page)),
      0 < n → (runMain n e script).count ≤ n) ∧
    (∀ (n : Nat) (e : String) (nx : Option (Option String)) (b : Bool)
      (rs : List SeedRecord) (rest : List (Option Page)),
      0 < n → n ≤ rs.length →
      (runMain n e (some ⟨nx, some rs, b⟩ :: rest)).count = n ∧
      (runMain n e (some ⟨nx, some rs, b⟩ :: rest)).fetchLog = ["us-east-2"]) ∧
    (runMain 10 "E" scriptC8).count = 10 ∧
    (runMain 10 "E" scriptC8).fetchLog = ["us-east-2"] ∧
    (runMain 0 "E" scriptC8).count = 25 ∧
    (runMain 0 "E" scriptC8).fetchLog = ["us-east-2", "us-east-2"] := by
  refine ⟨?_, ?_, ?_, ?_, ?_, ?_⟩
  · intro n e script h
    exact runClusters_le clusters n e script initState h h
  · intro n e nx b rs rest h1 h2
    have h0 : initState.count < n := h1
    have hreach : (processResults n { initState with page := initState.page + 1, fetchLog := initState.fetchLog ++ ["us-east-2"] } rs).count = n :=
      processResults_reach rs n _ h1 (by simpa [initState] using h1) (by simpa [initState] using h2)
    have hlog : (processResults n { initState with page := initState.page + 1, fetchLog := initState.fetchLog ++ ["us-east-2"] } rs).fetchLog
        = initState.fetchLog ++ ["us-east-2"] := (processResults_frame rs n _).2.1
    simp only [runMain, clusters, runClusters]
    rw [runCluster_firstPage n "us-east-2" nx b rs rest e initState h1 h0 (by simpa [initState] using h2)]
    rw [if_pos ⟨h1, le_of_eq hreach.symm⟩]
    exact ⟨hreach, by simpa [initState] using hlog⟩
  · rfl
  · rfl
  · rfl
  · rfl

/-- Witness for C8: a one-page trace with one seed and `-n 1` validates
exactly one URL with a single page fetch. -/
theorem check_seeds_C8_witness :
    (runMain 1 "E" [some ⟨none, some [recW], false⟩]).count = 1 ∧
    (runMain 1 "E" [some ⟨none, some [recW], false⟩]).fetchLog = ["us-east-2"] :=
  check_seeds_C8.2.1 1 "E" none false [recW] [] (by decide) (by decide)

/-- C1, counterexample: the claim says a successful page fetch resets the
consecutive-failure count, so that 4 non-consecutive failures never abandon
a cluster.  In the code `retries` is a run-global counter that is never
reset on success (it is reset only in the abandon branch), so in the trace
`scriptC1` — fetches 1, 3, 4 and 5 fail while fetch 2 succeeds and yields a
validated seed — the 4th (non-consecutive) failure abandons cluster
"us-east-2", and the run then proceeds to "eu-central-1" (fetch 6). -/
theorem check_seeds_C1_counterexample :
    (runMain 0 "E" scriptC1).abandoned = ["us-east-2"] ∧
    (runMain 0 "E" scriptC1).fetchLog
      = ["us-east-2", "us-east-2", "us-east-2", "us-east-2", "us-east-2", "eu-central-1"] ∧
    (runMain 0 "E" scriptC1).successes = 1 ∧
    (runMain 0 "E" scriptC1).count = 1 ∧
    (runMain 0 "E" scriptC1).retries = 0 := by
  refine ⟨?_, ?_, ?_, ?_, ?_⟩ <;> rfl

/-- C1, amended: page-fetch failures are counted by a single run-global
counter.  A failed fetch increments it and retries the same page cursor;
when the incremented counter exceeds 3 the current cluster's pagination is
abandoned without raising (counter reset to 0) and the run proceeds to the
next cluster.  A successful page fetch does not reset the counter: the
record-processing loop leaves `retries` untouched and a successful fetch
recurses with the state it produces. -/
theorem check_seeds_C1_amended : ∀ (n : Nat) (c : String) (script : List (Option Page))
    (ep : String) (st : RunState),
    (runCluster n c (none :: script) (some ep) st =
      if st.retries + 1 > 3 then
        (script,
          { st with page := st.page + 1, fetchLog := st.fetchLog ++ [c],
                    retries := 0, abandoned := st.abandoned ++ [c] })
      else
        runCluster n c script (some ep)
          { st with page := st.page + 1, fetchLog := st.fetchLog ++ [c],
                    retries := st.retries + 1 }) ∧
    (∀ rs, (processResults n st rs).retries = st.retries) ∧
    (∀ (pg : Page) (rs : List SeedRecord), pg.isTruthy = true → pg.results = some rs →
      runCluster n c (some pg :: script) (some ep) st =
        (if n > 0 ∧ (processResults n
              { st with page := st.page + 1, fetchLog := st.fetchLog ++ [c] } rs).count ≥ n
         then (script, processResults n
              { st with page := st.page + 1, fetchLog := st.fetchLog ++ [c] } rs)
         else runCluster n c script (nextEndpoint pg)
           (processResults n
              { st with page := st.page + 1, fetchLog := st.fetchLog ++ [c] } rs))) := by
  intro n c script ep st
  refine ⟨rfl, fun rs => (processResults_frame rs n st).1, ?_⟩
  intro pg rs hT hres
  simp only [runCluster, hT, hres]
  rw [if_pos trivial]

/-- Witness for C1 (amended): a successful one-record page recurses with
`retries` unchanged (still 0). -/
theorem check_seeds_C1_amended_witness :
    runCluster 0 "us-east-2" [some pgC1] (some "E") initState
      = ([], ⟨1, 1, 1, 0, 0, [], ["us-east-2"], []⟩) :=
  ((check_seeds_C1_amended 0 "us-east-2" [] "E" initState).2.2 pgC1 [recW] rfl rfl).trans
    (by rfl)

/-- C10, counterexample: the claim says a successfully fetched page whose
JSON object lacks a `next` key ends pagination for the current cluster.
An empty JSON object is such a page, but it is falsy in Python, so
`if not api_response` treats it as a failed fetch: in `scriptC10` the first
response is `{}`, yet the same cluster performs a second fetch of the same
cursor (fetchLog has two "us-east-2" entries), the retry counter is now 1,
and pagination continued to a page whose seed was validated. -/
theorem check_seeds_C10_counterexample :
    (runMain 0 "E" scriptC10).fetchLog = ["us-east-2", "us-east-2"] ∧
    (runMain 0 "E" scriptC10).retries = 1 ∧
    (runMain 0 "E" scriptC10).count = 1 ∧
    (runMain 0 "E" scriptC10).successes = 1 := by
  refine ⟨?_, ?_, ?_, ?_⟩ <;> rfl

/-- C10, amended: for a truthy (non-empty) fetched page object the claim
holds: a page lacking `results` contributes nothing to the counters or the
report and pagination continues via its `next` value; a truthy page lacking
`next` ends pagination for the current cluster (immediately when `results`
is also absent, and after walking its results otherwise, shown for the
unlimited run).  An empty page object, however, is treated as a fetch
failure: it takes the retry branch. -/
theorem check_seeds_C10_amended : ∀ (n : Nat) (c : String) (script : List (Option Page))
    (ep : String) (st : RunState) (pg : Page),
    (pg.isTruthy = true → pg.results = none →
      runCluster n c (some pg :: script) (some ep) st =
        runCluster n c script (nextEndpoint pg)
          { st with page := st.page + 1, fetchLog := st.fetchLog ++ [c] }) ∧
    (pg.isTruthy = true → pg.results = none → pg.next = none →
      runCluster n c (some pg :: script) (some ep) st =
        (script, { st with page := st.page + 1, fetchLog := st.fetchLog ++ [c] })) ∧
    (∀ rs, pg.isTruthy = true → pg.results = some rs → pg.next = none →
      runCluster 0 c (some pg :: script) (some ep) st =
        (script, processResults 0
          { st with page := st.page + 1, fetchLog := st.fetchLog ++ [c] } rs)) ∧
    (pg.isTruthy = false →
      runCluster n c (some pg :: script) (some ep) st =
        (if st.retries + 1 > 3 then
          (script,
            { st with page := st.page + 1, fetchLog := st.fetchLog ++ [c],
                      retries := 0, abandoned := st.abandoned ++ [c] })
         else
          runCluster n c script (some ep)
            { st with page := st.page + 1, fetchLog := st.fetchLog ++ [c],
                      retries := st.retries + 1 })) := by
  intro n c script ep st pg
  refine ⟨?_, ?_, ?_, ?_⟩
  · intro hT hres
    simp only [runCluster, hT, hres]
    rw [if_pos trivial]
  · intro hT hres hnx
    simp only [runCluster, hT, hres, nextEndpoint, hnx]
    rw [if_pos trivial]
  · intro rs hT hres hnx
    simp only [runCluster, hT, hres, nextEndpoint, hnx]
    rw [if_pos trivial]
    rw [if_neg (by omega)]
  · intro hT
    simp only [runCluster, hT]
    rw [if_neg (by simp)]

/-- Witness for C10 (amended): a truthy page with other keys but neither
`results` nor `next` ends the cluster's pagination with no counter
change. -/
theorem check_seeds_C10_amended_witness :
    runCluster 5 "c" [some pgC10] (some "E") initState
      = ([], ⟨1, 0, 0, 0, 0, [], ["c"], []⟩) :=
  ((check_seeds_C10_amended 5 "c" [] "E" initState pgC10).2.1 rfl rfl rfl).trans (by rfl)

end CheckSeeds
